import Mathlib

/-!
Verification of the `custom_components/api_v2` module (a Home Assistant
REST endpoint layer) against its specification.

The module is shallowly embedded: each HTTP handler becomes a pure Lean
function from the request data (external state store contents, requesting
user, path `entity_id`, parsed body, request context) to a `HandlerResult`
recording the HTTP outcome, the resulting store, and the trace of store
operations the handler performed.  The external collaborators (the host
platform's state store and permission authority) are modelled per the
spec's collaborator contracts: the store as an association list keyed by
`entity_id` with `get` / `async_set` / `async_remove` / `async_all`
operations, the permission authority as boolean-valued fields of `User`.
-/

/-- JSON values, as decoded by the host's JSON codec.  `Json.null` also
stands for Python `None` wherever a decoded value is consumed. -/
inductive Json where
  | null
  | bool (b : Bool)
  | num (n : Int)
  | str (s : String)
  | arr (elems : List Json)
  | obj (fields : List (String × Json))

/-- `d.isObj` is true exactly when `d` is a JSON object, i.e. decodes to a
Python `dict` (the only decoded values with a `.get` method). -/
def Json.isObj : Json → Bool
  | .obj _ => true
  | _ => false

/-- `d.isNull` is true exactly when `d` is `Json.null`, i.e. the Python
`is None` test on a decoded value. -/
def Json.isNull : Json → Bool
  | .null => true
  | _ => false

/-- Raw dictionary lookup on the fields of a decoded JSON object. -/
def dict_find (fields : List (String × Json)) (key : String) : Option Json :=
  (fields.find? (fun p => p.1 == key)).map (fun p => p.2)

/-- Python `data.get(key)`: the value at `key`, or `None` when absent.
Since `Json.null` stands for Python `None`, an explicit JSON `null` value
and an absent key yield the same result, as in Python. -/
def pyGet (fields : List (String × Json)) (key : String) : Json :=
  (dict_find fields key).getD .null

/-- Python `data.get(key, default)`: the value at `key`, or `default` only
when the key is absent. -/
def pyGetD (fields : List (String × Json)) (key : String) (default : Json) : Json :=
  (dict_find fields key).getD default

/-- Request-scoped context attached to a write for attribution
(`self.context(request)` in the source). -/
structure Context where
  user_id : String
deriving DecidableEq

/-- The requesting identity, as consulted by the handlers: the coarse
`is_admin` flag and the per-entity capability check
`permissions.check_entity entity_id policy`. -/
structure User where
  is_admin : Bool
  check_entity : String → String → Bool

/-- An entity state record held by the external store.  Modelled per the
spec's data model: identifier, state value, attribute bag, `force_update`
flag and the attribution context supplied by the writing request. -/
structure StateRecord where
  entity_id : String
  state : Json
  attributes : Json
  force_update : Json
  context : Context

/-- The external state store's contents: an association list from
`entity_id` to the current record, per the spec's collaborator contract
`get / set / remove / list`. -/
def Store : Type := List (String × StateRecord)

/-- `hass.states.get(entity_id)`: the record at `entity_id`, if any. -/
def states_get (store : Store) (entity_id : String) : Option StateRecord :=
  (List.find? (fun p => p.1 == entity_id) store).map (fun p => p.2)

/-- `hass.states.async_set(entity_id, state, attributes, force_update,
context)`: create or replace the record at `entity_id`. -/
def states_async_set (store : Store) (entity_id : String) (state attributes force_update : Json)
    (context : Context) : Store :=
  (entity_id, ⟨entity_id, state, attributes, force_update, context⟩) ::
    List.filter (fun p => !(p.1 == entity_id)) store

/-- `hass.states.async_remove(entity_id)`: drop the record at `entity_id`,
reporting whether one existed. -/
def states_async_remove (store : Store) (entity_id : String) : Bool × Store :=
  ((List.find? (fun p => p.1 == entity_id) store).isSome,
    List.filter (fun p => !(p.1 == entity_id)) store)

/-- `hass.states.async_all()`: every record currently in the store. -/
def states_async_all (store : Store) : List StateRecord :=
  List.map (fun p => p.2) store

/-- `POLICY_READ` from `homeassistant.auth.permissions.const`. -/
def POLICY_READ : String := "read"

/-- A response body as built by the view helpers: `json_message` wraps a
message string, `self.json` serializes a record (possibly `None`) or a
list of records. -/
inductive ResponseBody where
  | message (text : String)
  | record (r : Option StateRecord)
  | records (rs : List StateRecord)

/-- What a handler invocation produces: an HTTP response (status, body,
extra headers), a raised `Unauthorized` carrying the optional entity
identifier, or an uncaught Python `AttributeError`. -/
inductive Outcome where
  | response (status : Nat) (body : ResponseBody) (headers : List (String × String))
  | unauthorized (entity_id : Option String)
  | attributeError

/-- The extra headers of a response outcome (empty for non-responses). -/
def Outcome.headersOf : Outcome → List (String × String)
  | .response _ _ headers => headers
  | _ => []

/-- The status code of a response outcome (`0` for non-responses). -/
def Outcome.statusOf : Outcome → Nat
  | .response status _ _ => status
  | _ => 0

/-- A store operation performed by a handler, recorded in order. -/
inductive StoreCall where
  | get (entity_id : String)
  | set (entity_id : String)
  | remove (entity_id : String)
deriving DecidableEq

/-- Everything observable about one handler invocation: the outcome, the
store contents afterwards, and the ordered trace of store operations. -/
structure HandlerResult where
  outcome : Outcome
  store : Store
  calls : List StoreCall

/-- The views the module can register on the host HTTP router. -/
inductive View where
  | APIStatusView
  | APIStatesView
  | APIEntityStateView
  | APIErrorLog
deriving DecidableEq

/-- `async_setup(hass, config)`: the list of views registered on
`hass.http`, in registration order, as a function of whether
`DATA_LOGGING` is present in `hass.data`.  (The source function also
returns `True`, which carries no information.) -/
def async_setup (data_logging_present : Bool) : List View :=
  [View.APIStatusView, View.APIStatesView] ++
    (if data_logging_present then [View.APIErrorLog] else [])

/-- `APIStatusView.get`: always the 200 "API v2 running." message. -/
def APIStatusView.get : Outcome :=
  .response 200 (.message "API v2 running.") []

/-- `APIStatesView.get`: all records of the store whose `entity_id` the
requesting user's `check_entity(_, "read")` capability admits. -/
def APIStatesView.get (store : Store) (user : User) : Outcome :=
  .response 200
    (.records (List.filter (fun state => user.check_entity state.entity_id "read")
      (states_async_all store))) []

/-- `APIEntityStateView.get`: per-entity read.  Checks the per-entity read
capability, then looks the entity up, answering 200 with the record or
404 "Entity not found.". -/
def APIEntityStateView.get (store : Store) (user : User) (entity_id : String) : HandlerResult :=
  if !(user.check_entity entity_id POLICY_READ) then
    ⟨.unauthorized (some entity_id), store, []⟩
  else
    match states_get store entity_id with
    | some state => ⟨.response 200 (.record (some state)) [], store, [.get entity_id]⟩
    | none => ⟨.response 404 (.message "Entity not found.") [], store, [.get entity_id]⟩

/-- `APIEntityStateView.post`: admin-only create-or-update.  `body` is the
result of `await request.json()`: `none` when the body failed to parse
(`ValueError`), otherwise the decoded JSON value.  A decoded body that is
not an object has no `.get` method, so `data.get("state")` raises an
uncaught `AttributeError`. -/
def APIEntityStateView.post (store : Store) (user : User) (entity_id : String)
    (body : Option Json) (ctx : Context) : HandlerResult :=
  if !user.is_admin then
    ⟨.unauthorized (some entity_id), store, []⟩
  else
    match body with
    | none => ⟨.response 400 (.message "Invalid JSON specified.") [], store, []⟩
    | some data =>
      match data with
      | .obj fields =>
        let new_state := pyGet fields "state"
        if new_state.isNull then
          ⟨.response 400 (.message "No state specified.") [], store, []⟩
        else
          let attributes := pyGet fields "attributes"
          let force_update := pyGetD fields "force_update" (.bool false)
          let is_new_state := (states_get store entity_id).isNone
          let store2 := states_async_set store entity_id new_state attributes force_update ctx
          let status_code : Nat := if is_new_state then 201 else 200
          ⟨.response status_code (.record (states_get store2 entity_id))
              [("Location", "/api/states/" ++ entity_id)],
            store2, [.get entity_id, .set entity_id, .get entity_id]⟩
      | _ => ⟨.attributeError, store, []⟩

/-- `APIEntityStateView.delete`: admin-only removal, answering 200
"Entity removed." or 404 "Entity not found." per the store's report. -/
def APIEntityStateView.delete (store : Store) (user : User) (entity_id : String) : HandlerResult :=
  if !user.is_admin then
    ⟨.unauthorized (some entity_id), store, []⟩
  else
    let res := states_async_remove store entity_id
    if res.1 then
      ⟨.response 200 (.message "Entity removed.") [], res.2, [.remove entity_id]⟩
    else
      ⟨.response 404 (.message "Entity not found.") [], res.2, [.remove entity_id]⟩

/-! ## Fixtures: concrete inputs used by the witness theorems. -/

/-- A concrete request context. -/
def wctx : Context := ⟨"user-1"⟩

/-- An administrator who also holds every per-entity capability. -/
def wadmin : User := ⟨true, fun _ _ => true⟩

/-- A non-admin user holding every per-entity read capability. -/
def wreader : User := ⟨false, fun _ _ => true⟩

/-- A user with no privileges at all. -/
def wnoperm : User := ⟨false, fun _ _ => false⟩

/-- A concrete stored record for `sensor.kitchen`. -/
def wrec : StateRecord := ⟨"sensor.kitchen", Json.str "42", Json.null, Json.bool false, wctx⟩

/-- A store holding exactly the `sensor.kitchen` record. -/
def wstore : Store := [("sensor.kitchen", wrec)]

/-! ## Helper lemmas about the store model. -/

/-- Reading an entity back right after `async_set` yields exactly the record
that was written. -/
theorem states_get_set_self (store : Store) (entity_id : String)
    (state attributes force_update : Json) (ctx : Context) :
    states_get (states_async_set store entity_id state attributes force_update ctx) entity_id =
      some ⟨entity_id, state, attributes, force_update, ctx⟩ := by
  simp [states_get, states_async_set, List.find?]

/-! ## Claims -/

/-- C1: The claim says the module's setup registers views for the status
check, the bulk state listing, the per-entity state endpoint, and (when
logging data is present) the error log.  The code's `async_setup` registers
only the status and bulk-states views, plus the error-log view when logging
data is present: it never registers `APIEntityStateView`, in either case. -/
theorem C1_entity_state_view_never_registered :
    async_setup false = [View.APIStatusView, View.APIStatesView] ∧
    async_setup true = [View.APIStatusView, View.APIStatesView, View.APIErrorLog] ∧
    View.APIEntityStateView ∉ async_setup false ∧
    View.APIEntityStateView ∉ async_setup true := by
  decide

/-- C2: a request lacking the required permission (per-entity read for GET,
admin for POST and DELETE) yields `Unauthorized` carrying the entity
identifier, with no store operation performed and the store unchanged, for
every store content, request body and context. -/
theorem C2_unauthorized_before_store (store : Store) (user : User) (entity_id : String)
    (body : Option Json) (ctx : Context) :
    (user.check_entity entity_id POLICY_READ = false →
      APIEntityStateView.get store user entity_id =
        ⟨.unauthorized (some entity_id), store, []⟩) ∧
    (user.is_admin = false →
      APIEntityStateView.post store user entity_id body ctx =
        ⟨.unauthorized (some entity_id), store, []⟩ ∧
      APIEntityStateView.delete store user entity_id =
        ⟨.unauthorized (some entity_id), store, []⟩) := by
  constructor
  · intro h
    simp [APIEntityStateView.get, h]
  · intro h
    constructor
    · simp [APIEntityStateView.post, h]
    · simp [APIEntityStateView.delete, h]

/-- Witness for C2: the permissionless user is turned away from all three
operations on `light.k` with no store call, even with an unparsable body. -/
theorem C2_unauthorized_before_store_witness :
    APIEntityStateView.get [] wnoperm "light.k" = ⟨.unauthorized (some "light.k"), [], []⟩ ∧
    APIEntityStateView.post [] wnoperm "light.k" none wctx =
      ⟨.unauthorized (some "light.k"), [], []⟩ ∧
    APIEntityStateView.delete [] wnoperm "light.k" =
      ⟨.unauthorized (some "light.k"), [], []⟩ :=
  ⟨(C2_unauthorized_before_store [] wnoperm "light.k" none wctx).1 rfl,
   ((C2_unauthorized_before_store [] wnoperm "light.k" none wctx).2 rfl).1,
   ((C2_unauthorized_before_store [] wnoperm "light.k" none wctx).2 rfl).2⟩

/-- C3: a GET by a user holding the per-entity read capability answers 404
"Entity not found." when the store holds no record at `entity_id`, and 200
with the full record when it does; either way the only store operation is
the lookup and the store is unchanged. -/
theorem C3_get_found_or_not_found (store : Store) (user : User) (entity_id : String)
    (hperm : user.check_entity entity_id POLICY_READ = true) :
    (states_get store entity_id = none →
      APIEntityStateView.get store user entity_id =
        ⟨.response 404 (.message "Entity not found.") [], store, [.get entity_id]⟩) ∧
    (∀ r, states_get store entity_id = some r →
      APIEntityStateView.get store user entity_id =
        ⟨.response 200 (.record (some r)) [], store, [.get entity_id]⟩) := by
  constructor
  · intro h
    simp [APIEntityStateView.get, hperm, h]
  · intro r h
    simp [APIEntityStateView.get, hperm, h]

/-- Witness for C3: on the one-record store, reading `sensor.kitchen`
answers 200 with the record; on the empty store it answers 404. -/
theorem C3_get_found_or_not_found_witness :
    APIEntityStateView.get wstore wreader "sensor.kitchen" =
      ⟨.response 200 (.record (some wrec)) [], wstore, [.get "sensor.kitchen"]⟩ ∧
    APIEntityStateView.get [] wreader "sensor.kitchen" =
      ⟨.response 404 (.message "Entity not found.") [], [], [.get "sensor.kitchen"]⟩ :=
  ⟨(C3_get_found_or_not_found wstore wreader "sensor.kitchen" rfl).2 wrec rfl,
   (C3_get_found_or_not_found [] wreader "sensor.kitchen" rfl).1 rfl⟩

/-- C4 counterexample: with an admin identity, entity `sensor.kitchen` and
body `[]` — which parses as JSON yet lacks a `state` field — the handler
raises an uncaught `AttributeError` (the decoded list has no `.get`), so
its outcome is not the claimed HTTP 400 "No state specified." response. -/
theorem C4_counterexample_non_object_body :
    (APIEntityStateView.post [] wadmin "sensor.kitchen" (some (.arr [])) wctx).outcome =
      .attributeError ∧
    (APIEntityStateView.post [] wadmin "sensor.kitchen" (some (.arr [])) wctx).outcome.statusOf
      ≠ 400 :=
  ⟨rfl, by decide⟩

/-- C4 (amended): for every admin POST, an unparsable body answers HTTP 400
"Invalid JSON specified."; a body parsing to a JSON object whose `state`
lookup yields `None` answers HTTP 400 "No state specified."; a body parsing
to a non-object JSON value raises an uncaught `AttributeError`; in every one
of these failure cases the handler performs no store operation at all. -/
theorem C4_post_validation_order (store : Store) (user : User) (entity_id : String)
    (data : Json) (fields : List (String × Json)) (ctx : Context)
    (hadmin : user.is_admin = true) :
    (APIEntityStateView.post store user entity_id none ctx =
      ⟨.response 400 (.message "Invalid JSON specified.") [], store, []⟩) ∧
    ((pyGet fields "state").isNull = true →
      APIEntityStateView.post store user entity_id (some (.obj fields)) ctx =
        ⟨.response 400 (.message "No state specified.") [], store, []⟩) ∧
    (data.isObj = false →
      APIEntityStateView.post store user entity_id (some data) ctx =
        ⟨.attributeError, store, []⟩) := by
  refine ⟨?_, ?_, ?_⟩
  · simp [APIEntityStateView.post, hadmin]
  · intro h
    simp [APIEntityStateView.post, hadmin, h]
  · intro h
    cases data <;> simp_all [APIEntityStateView.post, hadmin, Json.isObj]

/-- Witness for C4: concrete admin POSTs on the empty store — no body, body
`{}`, body `[]` — yield the three failure outcomes with no store call. -/
theorem C4_post_validation_order_witness :
    APIEntityStateView.post [] wadmin "sensor.kitchen" none wctx =
      ⟨.response 400 (.message "Invalid JSON specified.") [], [], []⟩ ∧
    APIEntityStateView.post [] wadmin "sensor.kitchen" (some (.obj [])) wctx =
      ⟨.response 400 (.message "No state specified.") [], [], []⟩ ∧
    APIEntityStateView.post [] wadmin "sensor.kitchen" (some (.arr [])) wctx =
      ⟨.attributeError, [], []⟩ :=
  ⟨(C4_post_validation_order [] wadmin "sensor.kitchen" (.arr []) [] wctx rfl).1,
   (C4_post_validation_order [] wadmin "sensor.kitchen" (.arr []) [] wctx rfl).2.1 rfl,
   (C4_post_validation_order [] wadmin "sensor.kitchen" (.arr []) [] wctx rfl).2.2 rfl⟩

/-- C5 counterexample: a non-admin POST with an unparsable body on
`sensor.kitchen` raises `Unauthorized` — the admin check precedes body
parsing — so its outcome is not the claimed HTTP 400 "Invalid JSON
specified." response. -/
theorem C5_counterexample_non_admin_invalid_json :
    (APIEntityStateView.post [] wnoperm "sensor.kitchen" none wctx).outcome =
      .unauthorized (some "sensor.kitchen") ∧
    (APIEntityStateView.post [] wnoperm "sensor.kitchen" none wctx).outcome.statusOf ≠ 400 :=
  ⟨rfl, by decide⟩

/-- C5 (amended): a POST whose body is not valid JSON yields HTTP 400
"Invalid JSON specified." for every entity identifier and store content
whenever the requesting identity is an admin; a non-admin identity instead
raises `Unauthorized` before the body is ever examined. -/
theorem C5_invalid_json_always_400 (store : Store) (user : User) (entity_id : String)
    (ctx : Context) :
    (user.is_admin = true →
      APIEntityStateView.post store user entity_id none ctx =
        ⟨.response 400 (.message "Invalid JSON specified.") [], store, []⟩) ∧
    (user.is_admin = false →
      APIEntityStateView.post store user entity_id none ctx =
        ⟨.unauthorized (some entity_id), store, []⟩) := by
  constructor
  · intro h
    simp [APIEntityStateView.post, h]
  · intro h
    simp [APIEntityStateView.post, h]

/-- Witness for C5: an admin and a non-admin POST of an unparsable body on
the empty store get the 400 response and the `Unauthorized` failure
respectively. -/
theorem C5_invalid_json_always_400_witness :
    APIEntityStateView.post [] wadmin "sensor.kitchen" none wctx =
      ⟨.response 400 (.message "Invalid JSON specified.") [], [], []⟩ ∧
    APIEntityStateView.post [] wnoperm "sensor.kitchen" none wctx =
      ⟨.unauthorized (some "sensor.kitchen"), [], []⟩ :=
  ⟨(C5_invalid_json_always_400 [] wadmin "sensor.kitchen" wctx).1 rfl,
   (C5_invalid_json_always_400 [] wnoperm "sensor.kitchen" wctx).2 rfl⟩

/-- C6: a successful admin POST (body a JSON object with a non-null `state`)
looks the entity up before writing, invokes the store's set-operation, and
answers with the record re-read from the store after the write; the status
is 201 exactly when no record existed at `entity_id` before the write, and
200 otherwise. -/
theorem C6_post_create_or_update (store : Store) (user : User) (entity_id : String)
    (fields : List (String × Json)) (ctx : Context)
    (hadmin : user.is_admin = true)
    (hstate : (pyGet fields "state").isNull = false) :
    let store2 := states_async_set store entity_id (pyGet fields "state")
      (pyGet fields "attributes") (pyGetD fields "force_update" (Json.bool false)) ctx
    let res := APIEntityStateView.post store user entity_id (some (.obj fields)) ctx
    res.calls = [.get entity_id, .set entity_id, .get entity_id] ∧
    res.store = store2 ∧
    res.outcome = .response (if (states_get store entity_id).isNone then 201 else 200)
      (.record (states_get store2 entity_id)) [("Location", "/api/states/" ++ entity_id)] ∧
    (res.outcome.statusOf = 201 ↔ states_get store entity_id = none) := by
  cases h : states_get store entity_id with
  | none => simp [APIEntityStateView.post, hadmin, hstate, h, Outcome.statusOf]
  | some r => simp [APIEntityStateView.post, hadmin, hstate, h, Outcome.statusOf]

/-- Witness for C6: an admin POST of `{"state": "42"}` for `sensor.kitchen`
on the empty store performs lookup, write, re-read, answers 201 with the
written record, and its status is 201 exactly because no record existed. -/
theorem C6_post_create_or_update_witness :
    (let store2 := states_async_set [] "sensor.kitchen"
        (pyGet [("state", Json.str "42")] "state")
        (pyGet [("state", Json.str "42")] "attributes")
        (pyGetD [("state", Json.str "42")] "force_update" (Json.bool false)) wctx
     let res := APIEntityStateView.post [] wadmin "sensor.kitchen"
        (some (.obj [("state", Json.str "42")])) wctx
     res.calls = [.get "sensor.kitchen", .set "sensor.kitchen", .get "sensor.kitchen"] ∧
     res.store = store2 ∧
     res.outcome = .response (if (states_get [] "sensor.kitchen").isNone then 201 else 200)
       (.record (states_get store2 "sensor.kitchen"))
       [("Location", "/api/states/" ++ "sensor.kitchen")] ∧
     (res.outcome.statusOf = 201 ↔ states_get [] "sensor.kitchen" = none)) :=
  C6_post_create_or_update [] wadmin "sensor.kitchen" [("state", Json.str "42")] wctx rfl rfl

/-- C7: every successful POST response carries exactly one extra header,
`Location`, whose value is the foundational API's states path
`/api/states/{entity_id}`: its first five characters are `/api/` and its
first seven characters are not `/api_v2`, for every entity identifier. -/
theorem C7_location_header (store : Store) (user : User) (entity_id : String)
    (fields : List (String × Json)) (ctx : Context)
    (hadmin : user.is_admin = true)
    (hstate : (pyGet fields "state").isNull = false) :
    (APIEntityStateView.post store user entity_id (some (.obj fields)) ctx).outcome.headersOf =
      [("Location", "/api/states/" ++ entity_id)] ∧
    ("/api/states/" ++ entity_id).data.take 5 = "/api/".data ∧
    ("/api/states/" ++ entity_id).data.take 7 ≠ "/api_v2".data := by
  refine ⟨?_, ?_, ?_⟩
  · simp [APIEntityStateView.post, hadmin, hstate, Outcome.headersOf]
  · rw [String.data_append, List.take_append_of_le_length (by decide)]
    decide
  · rw [String.data_append, List.take_append_of_le_length (by decide)]
    decide

/-- Witness for C7: the admin POST of `{"state": "42"}` for `sensor.kitchen`
carries `Location: /api/states/sensor.kitchen`, which begins with `/api/`
and not with `/api_v2`. -/
theorem C7_location_header_witness :
    (APIEntityStateView.post [] wadmin "sensor.kitchen"
        (some (.obj [("state", Json.str "42")])) wctx).outcome.headersOf =
      [("Location", "/api/states/" ++ "sensor.kitchen")] ∧
    ("/api/states/" ++ "sensor.kitchen").data.take 5 = "/api/".data ∧
    ("/api/states/" ++ "sensor.kitchen").data.take 7 ≠ "/api_v2".data :=
  C7_location_header [] wadmin "sensor.kitchen" [("state", Json.str "42")] wctx rfl rfl

/-- C8: an admin DELETE performs the store's remove-operation; when the
store reports a record existed and was removed it answers 200 "Entity
removed.", and when it reports none existed it answers 404 "Entity not
found."; the resulting store is the remove-operation's result. -/
theorem C8_delete_semantics (store : Store) (user : User) (entity_id : String)
    (hadmin : user.is_admin = true) :
    let res := APIEntityStateView.delete store user entity_id
    res.calls = [.remove entity_id] ∧
    res.store = (states_async_remove store entity_id).2 ∧
    ((states_async_remove store entity_id).1 = true →
      res.outcome = .response 200 (.message "Entity removed.") []) ∧
    ((states_async_remove store entity_id).1 = false →
      res.outcome = .response 404 (.message "Entity not found.") []) := by
  cases h : (states_async_remove store entity_id).1 with
  | false => simp [APIEntityStateView.delete, hadmin, h]
  | true => simp [APIEntityStateView.delete, hadmin, h]

/-- Witness for C8: an admin DELETE of `sensor.kitchen` answers 200 "Entity
removed." on the one-record store and 404 "Entity not found." on the empty
store. -/
theorem C8_delete_semantics_witness :
    (APIEntityStateView.delete wstore wadmin "sensor.kitchen").outcome =
      .response 200 (.message "Entity removed.") [] ∧
    (APIEntityStateView.delete [] wadmin "sensor.kitchen").outcome =
      .response 404 (.message "Entity not found.") [] :=
  ⟨(C8_delete_semantics wstore wadmin "sensor.kitchen" rfl).2.2.1 rfl,
   (C8_delete_semantics [] wadmin "sensor.kitchen" rfl).2.2.2 rfl⟩

/-- C9: for every `entity_id` with no record in the store, an admin POST of
a JSON object with a non-null `state` answers HTTP 201 with the written
record, and a subsequent GET on the same `entity_id` by a user holding the
read capability answers HTTP 200 with that same record, whose `state` field
is exactly the posted state. -/
theorem C9_post_then_get (store : Store) (admin reader : User) (entity_id : String)
    (fields : List (String × Json)) (ctx : Context)
    (habsent : states_get store entity_id = none)
    (hadmin : admin.is_admin = true)
    (hread : reader.check_entity entity_id POLICY_READ = true)
    (hstate : (pyGet fields "state").isNull = false) :
    let written : StateRecord := ⟨entity_id, pyGet fields "state", pyGet fields "attributes",
      pyGetD fields "force_update" (Json.bool false), ctx⟩
    let post_res := APIEntityStateView.post store admin entity_id (some (.obj fields)) ctx
    let get_res := APIEntityStateView.get post_res.store reader entity_id
    post_res.outcome =
      .response 201 (.record (some written)) [("Location", "/api/states/" ++ entity_id)] ∧
    get_res.outcome = .response 200 (.record (some written)) [] ∧
    written.state = pyGet fields "state" := by
  simp only [APIEntityStateView.post, APIEntityStateView.get, hadmin, hstate, habsent,
    hread, states_get_set_self, Bool.not_true, Bool.false_eq_true, if_false,
    Option.isNone_none, if_true]
  exact ⟨trivial, trivial, trivial⟩

/-- Witness for C9: on the empty store, the admin POST of `{"state": "42"}`
for `sensor.kitchen` answers 201 with the written record and the reader's
subsequent GET answers 200 with the same record, whose state is `"42"`. -/
theorem C9_post_then_get_witness :
    (let written : StateRecord := ⟨"sensor.kitchen", pyGet [("state", Json.str "42")] "state",
        pyGet [("state", Json.str "42")] "attributes",
        pyGetD [("state", Json.str "42")] "force_update" (Json.bool false), wctx⟩
     let post_res := APIEntityStateView.post [] wadmin "sensor.kitchen"
        (some (.obj [("state", Json.str "42")])) wctx
     let get_res := APIEntityStateView.get post_res.store wreader "sensor.kitchen"
     post_res.outcome =
       .response 201 (.record (some written)) [("Location", "/api/states/" ++ "sensor.kitchen")] ∧
     get_res.outcome = .response 200 (.record (some written)) [] ∧
     written.state = pyGet [("state", Json.str "42")] "state") :=
  C9_post_then_get [] wadmin wreader "sensor.kitchen" [("state", Json.str "42")] wctx
    rfl rfl rfl rfl

/-- C10: the bulk listing answers 200 with exactly the store's records whose
`entity_id` the requesting identity's read capability admits: a record is in
the response exactly when it is in the store and readable, so a record the
identity cannot read never appears, for every store content and identity. -/
theorem C10_states_listing_filtered (store : Store) (user : User) :
    APIStatesView.get store user =
      .response 200 (.records (List.filter (fun st => user.check_entity st.entity_id "read")
        (states_async_all store))) [] ∧
    ∀ r : StateRecord,
      r ∈ List.filter (fun st => user.check_entity st.entity_id "read") (states_async_all store) ↔
        (r ∈ states_async_all store ∧ user.check_entity r.entity_id "read" = true) :=
  ⟨rfl, fun _ => List.mem_filter⟩

/-- Witness for C10: with the one-record store, the permissionless user's
listing is empty and the reader's listing holds exactly the record. -/
theorem C10_states_listing_filtered_witness :
    (wrec ∈ List.filter (fun st => wnoperm.check_entity st.entity_id "read")
        (states_async_all wstore) ↔
      (wrec ∈ states_async_all wstore ∧ wnoperm.check_entity wrec.entity_id "read" = true)) ∧
    (wrec ∈ List.filter (fun st => wreader.check_entity st.entity_id "read")
        (states_async_all wstore) ↔
      (wrec ∈ states_async_all wstore ∧ wreader.check_entity wrec.entity_id "read" = true)) :=
  ⟨(C10_states_listing_filtered wstore wnoperm).2 wrec,
   (C10_states_listing_filtered wstore wreader).2 wrec⟩
